import Mathlib

/-!
Verification of the procedural-city / rain / camera core of the repository.

The repository holds two variants of the same browser animation:
the file main.js and a second unnamed variant (called V2 below).
Machine floats in the source are modelled by rational numbers; each call of
the uniform random source is modelled by an explicit rational argument r
with 0 <= r < 1.  Functions are transcribed per particle / per slot from
the loops in the source.
-/

/-- One rain streak: start point (sx, sy, sz), end point (ex, ey, ez) of a
line segment, and the per-particle fall speed stored in the velocities
array of the source. -/
structure RainParticle where
  sx : ℚ
  sy : ℚ
  sz : ℚ
  ex : ℚ
  ey : ℚ
  ez : ℚ
  vel : ℚ
  deriving Repr, DecidableEq

/-- Initialization of one rain particle, from createRain in main.js
(lines 322-339): x and z uniform in a 400-wide band, y uniform in
[0, 300), streak length 1 + r * 2, end point directly below the start,
velocity 2 + r * 3. -/
def createRainParticle (rx ry rz rl rv : ℚ) : RainParticle :=
  let x := (rx - 1/2) * 400
  let y := ry * 300
  let z := (rz - 1/2) * 400
  let streakLength := 1 + rl * 2
  { sx := x, sy := y, sz := z, ex := x, ey := y - streakLength, ez := z,
    vel := 2 + rv * 3 }

/-- Initialization of one rain particle in the V2 variant (createRain,
lines 280-294): 300-wide band, y uniform in [0, 200), streak length
1 + r, velocity 1.5 + r * 1.5. -/
def createRainParticleV2 (rx ry rz rl rv : ℚ) : RainParticle :=
  let x := (rx - 1/2) * 300
  let y := ry * 200
  let z := (rz - 1/2) * 300
  let len := 1 + rl
  { sx := x, sy := y, sz := z, ex := x, ey := y - len, ez := z,
    vel := 3/2 + rv * (3/2) }

/-- One advance step for one rain particle, from animate in main.js
(lines 391-411): both y coordinates drop by the velocity; if the start y
is then below 0 the particle respawns at height 300 with a fresh streak
length 1 + r1 * 2 and fresh x and z within 150 of the camera, the end
point sharing x and z with the start point. -/
def advanceRainParticle (p : RainParticle) (camX camZ r1 r2 r3 : ℚ) :
    RainParticle :=
  let sy := p.sy - p.vel
  let ey := p.ey - p.vel
  if sy < 0 then
    let newY : ℚ := 300
    let streakLength := 1 + r1 * 2
    let x := camX + (r2 - 1/2) * 300
    let z := camZ + (r3 - 1/2) * 300
    { sx := x, sy := newY, sz := z, ex := x, ey := newY - streakLength,
      ez := z, vel := p.vel }
  else
    { p with sy := sy, ey := ey }

/-- One advance step for one rain particle in the V2 variant (animate,
lines 328-341): the respawn sets start y to 200 and end y to the literal
199 (a fixed streak length of 1), with fresh x and z within 125 of the
camera. -/
def advanceRainParticleV2 (p : RainParticle) (camX camZ r2 r3 : ℚ) :
    RainParticle :=
  let sy := p.sy - p.vel
  let ey := p.ey - p.vel
  if sy < 0 then
    let x := camX + (r2 - 1/2) * 250
    let z := camZ + (r3 - 1/2) * 250
    { sx := x, sy := 200, sz := z, ex := x, ey := 199, ez := z,
      vel := p.vel }
  else
    { p with sy := sy, ey := ey }

/-- Specification of a respawned particle in main.js: start at height 300,
end point one fresh streak length below, horizontal position within 150
of the camera, end sharing x and z with the start. -/
def RespawnedMain (q : RainParticle) (camX camZ r1 : ℚ) : Prop :=
  q.sy = 300 ∧ q.ey = q.sy - (1 + r1 * 2) ∧
  |q.sx - camX| ≤ 150 ∧ |q.sz - camZ| ≤ 150 ∧ q.ex = q.sx ∧ q.ez = q.sz

/-- Specification of a respawned particle in the V2 variant: start at
height 200, end y the fixed literal 199 (streak length exactly 1),
horizontal position within 125 of the camera. -/
def RespawnedV2 (q : RainParticle) (camX camZ : ℚ) : Prop :=
  q.sy = 200 ∧ q.ey = 199 ∧ q.ey = q.sy - 1 ∧
  |q.sx - camX| ≤ 125 ∧ |q.sz - camZ| ≤ 125 ∧ q.ex = q.sx ∧ q.ez = q.sz

/-- C1 counterexample: the particle of the claim (start y one half, speed
two) respawns in main.js at height 300, which is neither 200 nor 250, so
the maximum heights quoted by the claim do not match the code. -/
theorem rain_respawn_height_counterexample :
    (advanceRainParticle ⟨0, 1/2, 0, 0, -1/2, 0, 2⟩ 0 0 0 0 0).sy = 300 ∧
    ¬ ((advanceRainParticle ⟨0, 1/2, 0, 0, -1/2, 0, 2⟩ 0 0 0 0 0).sy = 200 ∨
       (advanceRainParticle ⟨0, 1/2, 0, 0, -1/2, 0, 2⟩ 0 0 0 0 0).sy = 250) := by
  constructor
  · norm_num [advanceRainParticle]
  · norm_num [advanceRainParticle]

/-- C1 amended: a particle whose start y falls below 0 in one advance step
is respawned in the same call; in main.js the new start y is 300 (not 200
or 250) with end y a fresh random streak length below and x and z within
150 of the camera; in the V2 variant the new start y is 200 with end y
the fixed literal 199 (streak length 1, not freshly random) and x and z
within 125 of the camera. -/
theorem rain_respawn_amended (p : RainParticle) (camX camZ r1 r2 r3 : ℚ)
    (hr2a : 0 ≤ r2) (hr2b : r2 < 1) (hr3a : 0 ≤ r3) (hr3b : r3 < 1)
    (hfall : p.sy - p.vel < 0) :
    RespawnedMain (advanceRainParticle p camX camZ r1 r2 r3) camX camZ r1 ∧
    RespawnedV2 (advanceRainParticleV2 p camX camZ r2 r3) camX camZ := by
  have hmain : advanceRainParticle p camX camZ r1 r2 r3 =
      { sx := camX + (r2 - 1/2) * 300, sy := 300,
        sz := camZ + (r3 - 1/2) * 300, ex := camX + (r2 - 1/2) * 300,
        ey := 300 - (1 + r1 * 2), ez := camZ + (r3 - 1/2) * 300,
        vel := p.vel } := by
    unfold advanceRainParticle
    rw [if_pos hfall]
  have hv2 : advanceRainParticleV2 p camX camZ r2 r3 =
      { sx := camX + (r2 - 1/2) * 250, sy := 200,
        sz := camZ + (r3 - 1/2) * 250, ex := camX + (r2 - 1/2) * 250,
        ey := 199, ez := camZ + (r3 - 1/2) * 250, vel := p.vel } := by
    unfold advanceRainParticleV2
    rw [if_pos hfall]
  rw [hmain, hv2]
  refine ⟨⟨rfl, by ring, ?_, ?_, rfl, rfl⟩,
    ⟨rfl, rfl, by norm_num, ?_, ?_, rfl, rfl⟩⟩
  · rw [abs_le]; constructor <;> nlinarith
  · rw [abs_le]; constructor <;> nlinarith
  · rw [abs_le]; constructor <;> nlinarith
  · rw [abs_le]; constructor <;> nlinarith

/-- C1 amended, witness: concrete evaluation at the particle of the claim
with all random draws 0 and camera at the origin. -/
theorem rain_respawn_amended_witness :
    RespawnedMain (advanceRainParticle ⟨0, 1/2, 0, 0, -1/2, 0, 2⟩ 0 0 0 0 0)
      0 0 0 ∧
    RespawnedV2 (advanceRainParticleV2 ⟨0, 1/2, 0, 0, -1/2, 0, 2⟩ 0 0 0 0)
      0 0 :=
  rain_respawn_amended ⟨0, 1/2, 0, 0, -1/2, 0, 2⟩ 0 0 0 0 0
    (by norm_num) (by norm_num) (by norm_num) (by norm_num) (by norm_num)

/-- C2: the streak relation end y = start y minus a positive streak length
holds right after initialization (length 1 + rl * 2 in main.js, 1 + rl in
V2) and right after every advance call in both variants; the length is
unchanged when the particle is not respawned and is re-randomized (main.js,
1 + r1 * 2) or set to the fixed 1 (V2) at respawn. -/
theorem rain_streak_invariant (rx ry rz rl rv : ℚ) (hrl : 0 ≤ rl)
    (p : RainParticle) (camX camZ r1 r2 r3 : ℚ) (hr1 : 0 ≤ r1)
    (hp : 0 < p.sy - p.ey) :
    ((createRainParticle rx ry rz rl rv).ey
        = (createRainParticle rx ry rz rl rv).sy - (1 + rl * 2) ∧
     0 < (createRainParticle rx ry rz rl rv).sy
        - (createRainParticle rx ry rz rl rv).ey) ∧
    ((createRainParticleV2 rx ry rz rl rv).ey
        = (createRainParticleV2 rx ry rz rl rv).sy - (1 + rl) ∧
     0 < (createRainParticleV2 rx ry rz rl rv).sy
        - (createRainParticleV2 rx ry rz rl rv).ey) ∧
    (0 < (advanceRainParticle p camX camZ r1 r2 r3).sy
        - (advanceRainParticle p camX camZ r1 r2 r3).ey) ∧
    (0 ≤ p.sy - p.vel →
     (advanceRainParticle p camX camZ r1 r2 r3).sy
        - (advanceRainParticle p camX camZ r1 r2 r3).ey = p.sy - p.ey) ∧
    (p.sy - p.vel < 0 →
     (advanceRainParticle p camX camZ r1 r2 r3).sy
        - (advanceRainParticle p camX camZ r1 r2 r3).ey = 1 + r1 * 2) ∧
    (0 < (advanceRainParticleV2 p camX camZ r2 r3).sy
        - (advanceRainParticleV2 p camX camZ r2 r3).ey) ∧
    (0 ≤ p.sy - p.vel →
     (advanceRainParticleV2 p camX camZ r2 r3).sy
        - (advanceRainParticleV2 p camX camZ r2 r3).ey = p.sy - p.ey) ∧
    (p.sy - p.vel < 0 →
     (advanceRainParticleV2 p camX camZ r2 r3).sy
        - (advanceRainParticleV2 p camX camZ r2 r3).ey = 1) := by
  refine ⟨⟨by simp [createRainParticle]; try ring, ?_⟩,
    ⟨by simp [createRainParticleV2]; try ring, ?_⟩, ?_, ?_, ?_, ?_, ?_, ?_⟩
  · simp [createRainParticle]; linarith
  · simp [createRainParticleV2]; linarith
  all_goals by_cases hc : p.sy - p.vel < 0
  all_goals
    first
    | (unfold advanceRainParticle; rw [if_pos hc]; intros; simp; try linarith)
    | (unfold advanceRainParticle; rw [if_neg (not_lt.mpr (le_of_not_lt hc))];
       intros; simp; try linarith)
    | (unfold advanceRainParticleV2; rw [if_pos hc]; intros; simp; try linarith)
    | (unfold advanceRainParticleV2; rw [if_neg (not_lt.mpr (le_of_not_lt hc))];
       intros; simp; try linarith)

/-- C2 witness: concrete evaluation at a particle with start y 5, end y 4
and speed 2 (so it falls without respawning in one step) with all random
draws one half. -/
theorem rain_streak_invariant_witness :
    ((createRainParticle (1/2) (1/2) (1/2) (1/2) (1/2)).ey
        = (createRainParticle (1/2) (1/2) (1/2) (1/2) (1/2)).sy
            - (1 + (1/2) * 2) ∧
     0 < (createRainParticle (1/2) (1/2) (1/2) (1/2) (1/2)).sy
        - (createRainParticle (1/2) (1/2) (1/2) (1/2) (1/2)).ey) ∧
    ((createRainParticleV2 (1/2) (1/2) (1/2) (1/2) (1/2)).ey
        = (createRainParticleV2 (1/2) (1/2) (1/2) (1/2) (1/2)).sy
            - (1 + 1/2) ∧
     0 < (createRainParticleV2 (1/2) (1/2) (1/2) (1/2) (1/2)).sy
        - (createRainParticleV2 (1/2) (1/2) (1/2) (1/2) (1/2)).ey) ∧
    (0 < (advanceRainParticle ⟨0, 5, 0, 0, 4, 0, 2⟩ 0 0 (1/2) (1/2) (1/2)).sy
        - (advanceRainParticle ⟨0, 5, 0, 0, 4, 0, 2⟩ 0 0 (1/2) (1/2) (1/2)).ey) ∧
    (0 ≤ (5 : ℚ) - 2 →
     (advanceRainParticle ⟨0, 5, 0, 0, 4, 0, 2⟩ 0 0 (1/2) (1/2) (1/2)).sy
        - (advanceRainParticle ⟨0, 5, 0, 0, 4, 0, 2⟩ 0 0 (1/2) (1/2) (1/2)).ey
        = 5 - 4) ∧
    ((5 : ℚ) - 2 < 0 →
     (advanceRainParticle ⟨0, 5, 0, 0, 4, 0, 2⟩ 0 0 (1/2) (1/2) (1/2)).sy
        - (advanceRainParticle ⟨0, 5, 0, 0, 4, 0, 2⟩ 0 0 (1/2) (1/2) (1/2)).ey
        = 1 + (1/2) * 2) ∧
    (0 < (advanceRainParticleV2 ⟨0, 5, 0, 0, 4, 0, 2⟩ 0 0 (1/2) (1/2)).sy
        - (advanceRainParticleV2 ⟨0, 5, 0, 0, 4, 0, 2⟩ 0 0 (1/2) (1/2)).ey) ∧
    (0 ≤ (5 : ℚ) - 2 →
     (advanceRainParticleV2 ⟨0, 5, 0, 0, 4, 0, 2⟩ 0 0 (1/2) (1/2)).sy
        - (advanceRainParticleV2 ⟨0, 5, 0, 0, 4, 0, 2⟩ 0 0 (1/2) (1/2)).ey
        = 5 - 4) ∧
    ((5 : ℚ) - 2 < 0 →
     (advanceRainParticleV2 ⟨0, 5, 0, 0, 4, 0, 2⟩ 0 0 (1/2) (1/2)).sy
        - (advanceRainParticleV2 ⟨0, 5, 0, 0, 4, 0, 2⟩ 0 0 (1/2) (1/2)).ey
        = 1) :=
  rain_streak_invariant (1/2) (1/2) (1/2) (1/2) (1/2) (by norm_num)
    ⟨0, 5, 0, 0, 4, 0, 2⟩ 0 0 (1/2) (1/2) (1/2) (by norm_num) (by norm_num)

/-- C9: a particle is respawned by an advance call exactly when its start
y is below 0 after the decrement; when the decremented start y is still
at least 0 the particle keeps all its other fields and both y values just
drop by the speed, even when the decremented end y is already below the
ground plane, so streak end points may protrude below the ground. -/
theorem respawn_only_on_start_below (p : RainParticle)
    (camX camZ r1 r2 r3 : ℚ) :
    (0 ≤ p.sy - p.vel →
      advanceRainParticle p camX camZ r1 r2 r3
          = { p with sy := p.sy - p.vel, ey := p.ey - p.vel } ∧
      advanceRainParticleV2 p camX camZ r2 r3
          = { p with sy := p.sy - p.vel, ey := p.ey - p.vel }) ∧
    (p.sy - p.vel < 0 →
      (advanceRainParticle p camX camZ r1 r2 r3).sy = 300 ∧
      (advanceRainParticleV2 p camX camZ r2 r3).sy = 200) := by
  constructor
  · intro h
    constructor
    · unfold advanceRainParticle
      rw [if_neg (not_lt.mpr h)]
    · unfold advanceRainParticleV2
      rw [if_neg (not_lt.mpr h)]
  · intro h
    constructor
    · unfold advanceRainParticle
      rw [if_pos h]
    · unfold advanceRainParticleV2
      rw [if_pos h]

/-- C9 witness: a particle with start y 3, end y 2 and speed 3 ends the
advance call with start y 0 and end y minus 1: not respawned although its
end point is below the ground plane. -/
theorem respawn_only_on_start_below_witness :
    advanceRainParticle ⟨0, 3, 0, 0, 2, 0, 3⟩ 5 7 0 0 0
        = ⟨0, 0, 0, 0, -1, 0, 3⟩ ∧
    advanceRainParticleV2 ⟨0, 3, 0, 0, 2, 0, 3⟩ 5 7 0 0
        = ⟨0, 0, 0, 0, -1, 0, 3⟩ := by
  have h := (respawn_only_on_start_below ⟨0, 3, 0, 0, 2, 0, 3⟩ 5 7 0 0 0).1
    (by norm_num)
  exact ⟨h.1.trans (by norm_num), h.2.trans (by norm_num)⟩

/-- C10: an advance call on a particle that is not respawned changes only
the two y coordinates, both by the particle's fall speed, and leaves the
four horizontal coordinates alone; and no advance call in either variant
ever changes any particle's fall speed. -/
theorem advance_preserves_xz_and_speed (p : RainParticle)
    (camX camZ r1 r2 r3 : ℚ) (h : 0 ≤ p.sy - p.vel) :
    ((advanceRainParticle p camX camZ r1 r2 r3).sx = p.sx ∧
     (advanceRainParticle p camX camZ r1 r2 r3).sz = p.sz ∧
     (advanceRainParticle p camX camZ r1 r2 r3).ex = p.ex ∧
     (advanceRainParticle p camX camZ r1 r2 r3).ez = p.ez ∧
     (advanceRainParticle p camX camZ r1 r2 r3).sy = p.sy - p.vel ∧
     (advanceRainParticle p camX camZ r1 r2 r3).ey = p.ey - p.vel) ∧
    ((advanceRainParticleV2 p camX camZ r2 r3).sx = p.sx ∧
     (advanceRainParticleV2 p camX camZ r2 r3).sz = p.sz ∧
     (advanceRainParticleV2 p camX camZ r2 r3).ex = p.ex ∧
     (advanceRainParticleV2 p camX camZ r2 r3).ez = p.ez ∧
     (advanceRainParticleV2 p camX camZ r2 r3).sy = p.sy - p.vel ∧
     (advanceRainParticleV2 p camX camZ r2 r3).ey = p.ey - p.vel) ∧
    (∀ q : RainParticle, (advanceRainParticle q camX camZ r1 r2 r3).vel = q.vel) ∧
    (∀ q : RainParticle, (advanceRainParticleV2 q camX camZ r2 r3).vel = q.vel) := by
  have e1 : advanceRainParticle p camX camZ r1 r2 r3
      = { p with sy := p.sy - p.vel, ey := p.ey - p.vel } := by
    unfold advanceRainParticle
    rw [if_neg (not_lt.mpr h)]
  have e2 : advanceRainParticleV2 p camX camZ r2 r3
      = { p with sy := p.sy - p.vel, ey := p.ey - p.vel } := by
    unfold advanceRainParticleV2
    rw [if_neg (not_lt.mpr h)]
  refine ⟨by rw [e1]; exact ⟨rfl, rfl, rfl, rfl, rfl, rfl⟩,
    by rw [e2]; exact ⟨rfl, rfl, rfl, rfl, rfl, rfl⟩, ?_, ?_⟩
  · intro q
    unfold advanceRainParticle
    by_cases hc : q.sy - q.vel < 0
    · rw [if_pos hc]
    · rw [if_neg (not_lt.mpr (le_of_not_lt hc))]
  · intro q
    unfold advanceRainParticleV2
    by_cases hc : q.sy - q.vel < 0
    · rw [if_pos hc]
    · rw [if_neg (not_lt.mpr (le_of_not_lt hc))]

/-- C10 witness: concrete evaluation at a particle with start y 5 and
speed 2, which is not respawned. -/
theorem advance_preserves_xz_and_speed_witness :
    ((advanceRainParticle ⟨1, 5, 2, 1, 4, 2, 2⟩ 9 9 0 0 0).sx = 1 ∧
     (advanceRainParticle ⟨1, 5, 2, 1, 4, 2, 2⟩ 9 9 0 0 0).sz = 2 ∧
     (advanceRainParticle ⟨1, 5, 2, 1, 4, 2, 2⟩ 9 9 0 0 0).ex = 1 ∧
     (advanceRainParticle ⟨1, 5, 2, 1, 4, 2, 2⟩ 9 9 0 0 0).ez = 2 ∧
     (advanceRainParticle ⟨1, 5, 2, 1, 4, 2, 2⟩ 9 9 0 0 0).sy = 5 - 2 ∧
     (advanceRainParticle ⟨1, 5, 2, 1, 4, 2, 2⟩ 9 9 0 0 0).ey = 4 - 2) ∧
    ((advanceRainParticleV2 ⟨1, 5, 2, 1, 4, 2, 2⟩ 9 9 0 0).sx = 1 ∧
     (advanceRainParticleV2 ⟨1, 5, 2, 1, 4, 2, 2⟩ 9 9 0 0).sz = 2 ∧
     (advanceRainParticleV2 ⟨1, 5, 2, 1, 4, 2, 2⟩ 9 9 0 0).ex = 1 ∧
     (advanceRainParticleV2 ⟨1, 5, 2, 1, 4, 2, 2⟩ 9 9 0 0).ez = 2 ∧
     (advanceRainParticleV2 ⟨1, 5, 2, 1, 4, 2, 2⟩ 9 9 0 0).sy = 5 - 2 ∧
     (advanceRainParticleV2 ⟨1, 5, 2, 1, 4, 2, 2⟩ 9 9 0 0).ey = 4 - 2) ∧
    (∀ q : RainParticle, (advanceRainParticle q 9 9 0 0 0).vel = q.vel) ∧
    (∀ q : RainParticle, (advanceRainParticleV2 q 9 9 0 0).vel = q.vel) :=
  advance_preserves_xz_and_speed ⟨1, 5, 2, 1, 4, 2, 2⟩ 9 9 0 0 0 (by norm_num)

/-- One per-frame update of the camera z coordinate: z drops by the step;
if the result is below the threshold it is replaced by the wrap value.
This is the shape of the z update in animate in both variants. -/
def camStep (step thresh wrapv z : ℚ) : ℚ :=
  let z2 := z - step
  if z2 < thresh then wrapv else z2

/-- The z update of main.js (animate lines 370-374): step one half,
threshold minus 400, wrap value 400. -/
def camStepMain : ℚ → ℚ :=
  camStep (1/2) (-400) 400

/-- The z update of the V2 variant (animate lines 320-321): step one
quarter, threshold minus 600, wrap value 600. -/
def camStepV2 : ℚ → ℚ :=
  camStep (1/4) (-600) 600

/-- Camera pose written by one frame: position and look-at target. -/
structure Pose where
  px : ℚ
  py : ℚ
  pz : ℚ
  lookX : ℚ
  lookY : ℚ
  lookZ : ℚ
  deriving Repr, DecidableEq

/-- Camera pose computation of main.js (animate lines 369-379), with the
sine of the host math library abstracted as an argument: z is stepped and
wrapped, x is sine of t times 0.2 scaled by 8, y is 8 plus sine of t
times 0.3 scaled by 3, and the look-at target is (0, 10, z - 80). -/
def computeCameraPose (sine : ℚ → ℚ) (t prevZ : ℚ) : Pose :=
  let z := camStepMain prevZ
  { px := sine (t * (1/5)) * 8, py := 8 + sine (t * (3/10)) * 3, pz := z,
    lookX := 0, lookY := 10, lookZ := z - 80 }

/-- Camera pose computation of the V2 variant (animate lines 319-325):
frequencies 0.1 and 0.15 and look-at target (0, 12, z - 40). -/
def computeCameraPoseV2 (sine : ℚ → ℚ) (t prevZ : ℚ) : Pose :=
  let z := camStepV2 prevZ
  { px := sine (t * (1/10)) * 8, py := 8 + sine (t * (3/20)) * 3, pz := z,
    lookX := 0, lookY := 12, lookZ := z - 40 }

/-- One advance call over the whole pool in main.js: every particle is
updated once, the respawn draws of particle i taken from slot i of the
random source. -/
def advancePool (camX camZ : ℚ) (pool : List RainParticle)
    (rands : ℕ → ℚ × ℚ × ℚ) : List RainParticle :=
  List.zipWith
    (fun p i =>
      advanceRainParticle p camX camZ (rands i).1 (rands i).2.1 (rands i).2.2)
    pool (List.range pool.length)

/-- One advance call over the whole pool in the V2 variant. -/
def advancePoolV2 (camX camZ : ℚ) (pool : List RainParticle)
    (rands : ℕ → ℚ × ℚ) : List RainParticle :=
  List.zipWith
    (fun p i => advanceRainParticleV2 p camX camZ (rands i).1 (rands i).2)
    pool (List.range pool.length)

/-- One frame of animate in main.js restricted to the state the claims
concern: first the camera pose is computed from elapsed time and the
previous z, then the rain pool is advanced around the new camera
position. -/
def frameStep (sine : ℚ → ℚ) (t prevZ : ℚ) (pool : List RainParticle)
    (rands : ℕ → ℚ × ℚ × ℚ) : Pose × List RainParticle :=
  let pose := computeCameraPose sine t prevZ
  (pose, advancePool pose.px pose.pz pool rands)

/-- One frame of animate in the V2 variant. -/
def frameStepV2 (sine : ℚ → ℚ) (t prevZ : ℚ) (pool : List RainParticle)
    (rands : ℕ → ℚ × ℚ) : Pose × List RainParticle :=
  let pose := computeCameraPoseV2 sine t prevZ
  (pose, advancePoolV2 pose.px pose.pz pool rands)

/-- C5: the camera pose of a frame is a pure function of elapsed time and
the previous z coordinate: two frames with the same (t, prevZ) produce
the same pose even when their rain pools and random draws differ, in both
variants. -/
theorem camera_pose_deterministic (sine : ℚ → ℚ) (t prevZ : ℚ)
    (pool1 pool2 : List RainParticle) (rands1 rands2 : ℕ → ℚ × ℚ × ℚ)
    (rands3 rands4 : ℕ → ℚ × ℚ) :
    (frameStep sine t prevZ pool1 rands1).1
        = (frameStep sine t prevZ pool2 rands2).1 ∧
    (frameStepV2 sine t prevZ pool1 rands3).1
        = (frameStepV2 sine t prevZ pool2 rands4).1 :=
  ⟨rfl, rfl⟩

/-- Helper: as long as the threshold is never crossed, iterating the z
update n times just subtracts n steps. -/
theorem camStep_iterate_of_no_wrap (s th w z : ℚ) (n : ℕ) (hs : 0 ≤ s)
    (h : th ≤ z - n * s) : (camStep s th w)^[n] z = z - n * s := by
  induction n generalizing z with
  | zero => simp
  | succ k ih =>
    have hks : (0 : ℚ) ≤ k * s := by positivity
    have hkk : ((k : ℚ) + 1) * s = k * s + s := by ring
    have hcast : ((k + 1 : ℕ) : ℚ) = (k : ℚ) + 1 := by push_cast; ring
    rw [hcast, hkk] at h
    have hstep : th ≤ z - s := by linarith
    have hcs : camStep s th w z = z - s := by
      unfold camStep
      rw [if_neg (not_lt.mpr hstep)]
    rw [Function.iterate_succ_apply, hcs, ih (z - s) (by linarith)]
    rw [hcast]
    ring

/-- C4 counterexample: with step 0.4, threshold minus 400 and wrap value
400, after ceil(800 / 0.4) = 2000 frames starting from z = 0 the z
coordinate is 0.4, which is not within one frame step of the positive
wrap value 400. -/
theorem camera_wrap_counterexample :
    (camStep (2/5) (-400) 400)^[2000] 0 = 2/5 ∧
    ¬ |(camStep (2/5) (-400) 400)^[2000] 0 - 400| ≤ 2/5 := by
  have h1000 : (camStep (2/5) (-400) 400)^[1000] 0 = -400 :=
    (camStep_iterate_of_no_wrap (2/5) (-400) 400 0 1000 (by norm_num)
      (by norm_num)).trans (by norm_num)
  have h1001 : (camStep (2/5) (-400) 400)^[1001] 0 = 400 := by
    have hsplit : (1001 : ℕ) = 1 + 1000 := by norm_num
    rw [hsplit, Function.iterate_add_apply, h1000, Function.iterate_one]
    unfold camStep
    rw [if_pos (by norm_num : (-400 : ℚ) - 2/5 < -400)]
  have h2000 : (camStep (2/5) (-400) 400)^[2000] 0 = 2/5 := by
    have hsplit : (2000 : ℕ) = 999 + 1001 := by norm_num
    rw [hsplit, Function.iterate_add_apply, h1001]
    exact (camStep_iterate_of_no_wrap (2/5) (-400) 400 400 999 (by norm_num)
      (by norm_num)).trans (by norm_num)
  refine ⟨h2000, ?_⟩
  rw [h2000, abs_of_nonpos (by norm_num : (2/5 : ℚ) - 400 ≤ 0)]
  norm_num

/-- C4 amended: in both variants the z coordinate drops by the fixed
per-frame step while above the threshold, and in the same frame in which
it passes the threshold it is replaced by the positive wrap value (one
half / minus 400 / 400 in main.js, one quarter / minus 600 / 600 in V2);
in the hypothetical 0.4-step configuration of the spec, starting from
z = 0 the reset to the wrap value 400 happens at frame 1001, which is
within ceil(800 / 0.4) = 2000 frames, but the value after exactly 2000
frames is 0.4, not the wrap value. -/
theorem camera_wrap_amended (z : ℚ) :
    (-400 ≤ z - 1/2 → camStepMain z = z - 1/2) ∧
    (z - 1/2 < -400 → camStepMain z = 400) ∧
    (-600 ≤ z - 1/4 → camStepV2 z = z - 1/4) ∧
    (z - 1/4 < -600 → camStepV2 z = 600) ∧
    (camStep (2/5) (-400) 400)^[1001] 0 = 400 ∧ 1001 ≤ 2000 := by
  refine ⟨?_, ?_, ?_, ?_, ?_, by norm_num⟩
  · intro h
    unfold camStepMain camStep
    rw [if_neg (not_lt.mpr h)]
  · intro h
    unfold camStepMain camStep
    rw [if_pos h]
  · intro h
    unfold camStepV2 camStep
    rw [if_neg (not_lt.mpr h)]
  · intro h
    unfold camStepV2 camStep
    rw [if_pos h]
  · have h1000 : (camStep (2/5) (-400) 400)^[1000] 0 = -400 :=
      (camStep_iterate_of_no_wrap (2/5) (-400) 400 0 1000 (by norm_num)
        (by norm_num)).trans (by norm_num)
    have hsplit : (1001 : ℕ) = 1 + 1000 := by norm_num
    rw [hsplit, Function.iterate_add_apply, h1000, Function.iterate_one]
    unfold camStep
    rw [if_pos (by norm_num : (-400 : ℚ) - 2/5 < -400)]

/-- C4 amended, witness: concrete z updates in both variants, away from
and across the threshold. -/
theorem camera_wrap_amended_witness :
    camStepMain 0 = 0 - 1/2 ∧ camStepMain (-400) = 400 ∧
    camStepV2 0 = 0 - 1/4 ∧ camStepV2 (-600) = 600 :=
  ⟨(camera_wrap_amended 0).1 (by norm_num),
   (camera_wrap_amended (-400)).2.1 (by norm_num),
   (camera_wrap_amended 0).2.2.1 (by norm_num),
   (camera_wrap_amended (-600)).2.2.2.1 (by norm_num)⟩

/-- The uniform draws one candidate building slot consumes: horizontal
position (rx, rz) and dimensions (rw, rd, rh). -/
structure BRand where
  rx : ℚ
  rz : ℚ
  rw : ℚ
  rd : ℚ
  rh : ℚ
  deriving Repr, DecidableEq

/-- One generated building: ground position, footprint and height. -/
structure Building where
  x : ℚ
  z : ℚ
  width : ℚ
  depth : ℚ
  height : ℚ
  deriving Repr, DecidableEq

/-- The building a slot of main.js would produce (createCyberpunkCity
lines 173-183): x uniform in a 500-wide band, z in a 1000-wide band,
width and depth uniform in [4, 12), height uniform in [10, 70). -/
def buildingOfRand (r : BRand) : Building :=
  { x := (r.rx - 1/2) * 500, z := (r.rz - 1/2) * 1000,
    width := r.rw * 8 + 4, depth := r.rd * 8 + 4,
    height := r.rh * 60 + 10 }

/-- One candidate slot of createCyberpunkCity in main.js: the slot is
discarded, with no retry, when the sampled x lies inside the road band of
half-width 15 (line 177). -/
def buildingSlot (r : BRand) : Option Building :=
  if |(r.rx - 1/2) * 500| < 15 then none else some (buildingOfRand r)

/-- The createCyberpunkCity loop of main.js over a list of per-slot
draws; at the call site the list has length 400. -/
def createCyberpunkCity (slots : List BRand) : List Building :=
  slots.filterMap buildingSlot

/-- The createCyberpunkCity loop generalized to an integer building
count, as the claims about configuration range need: the source loop runs
from 0 while below the count, so a count at most 0 runs it zero times. -/
def createCyberpunkCityN (buildingCount : ℤ) (slots : ℕ → BRand) :
    List Building :=
  createCyberpunkCity ((List.range buildingCount.toNat).map slots)

/-- The building one slot of createBuildingRow in the V2 variant produces
(lines 165-172): x uniform between the row bounds, z in a 1500-wide band,
height uniform in [20, 100), width and depth uniform in [8, 23). -/
def buildingOfRandV2 (xMin xMax : ℚ) (r : BRand) : Building :=
  { x := xMin + r.rx * (xMax - xMin), z := (r.rz - 1/2) * 1500,
    width := r.rw * 15 + 8, depth := r.rd * 15 + 8,
    height := r.rh * 80 + 20 }

/-- The createBuildingRow loop of the V2 variant; at each call site the
list has length 40 and the bounds keep the row clear of the road. -/
def createBuildingRow (xMin xMax : ℚ) (slots : List BRand) :
    List Building :=
  slots.map (buildingOfRandV2 xMin xMax)

/-- C3: slots of main.js whose x falls inside the road band produce
nothing and are not retried, so the city has at most as many buildings as
candidate slots and every emitted building has absolute x at least 15;
in the V2 variant the rows at bounds 30 to 60 and minus 30 to minus 60
stay outside the road band by construction. -/
theorem city_road_exclusion (slots : List BRand) (b : Building)
    (hb : b ∈ createCyberpunkCity slots) (r : BRand)
    (hr0 : 0 ≤ r.rx) (_hr1 : r.rx ≤ 1) :
    (createCyberpunkCity slots).length ≤ slots.length ∧
    (∀ s : BRand, |(s.rx - 1/2) * 500| < 15 → buildingSlot s = none) ∧
    15 ≤ |b.x| ∧
    30 ≤ (buildingOfRandV2 30 60 r).x ∧
    (buildingOfRandV2 (-30) (-60) r).x ≤ -30 := by
  refine ⟨List.length_filterMap_le _ _, ?_, ?_, ?_, ?_⟩
  · intro s hs
    unfold buildingSlot
    rw [if_pos hs]
  · obtain ⟨s, hsmem, hsb⟩ := List.mem_filterMap.mp hb
    unfold buildingSlot at hsb
    by_cases hx : |(s.rx - 1/2) * 500| < 15
    · rw [if_pos hx] at hsb
      exact absurd hsb (by simp)
    · rw [if_neg hx] at hsb
      obtain rfl := Option.some.inj hsb
      exact not_lt.mp hx
  · show 30 ≤ 30 + r.rx * (60 - 30)
    nlinarith
  · show -30 + r.rx * (-60 - -30) ≤ -30
    nlinarith

/-- C3 witness: a two-slot run in which the first slot (x equal 0) is
discarded and the second (x equal 250) is kept. -/
theorem city_road_exclusion_witness :
    (createCyberpunkCity [⟨1/2, 0, 0, 0, 0⟩, ⟨1, 0, 0, 0, 0⟩]).length
        ≤ ([⟨1/2, 0, 0, 0, 0⟩, ⟨1, 0, 0, 0, 0⟩] : List BRand).length ∧
    (∀ s : BRand, |(s.rx - 1/2) * 500| < 15 → buildingSlot s = none) ∧
    15 ≤ |(Building.mk 250 (-500) 4 4 10).x| ∧
    30 ≤ (buildingOfRandV2 30 60 ⟨1/2, 0, 0, 0, 0⟩).x ∧
    (buildingOfRandV2 (-30) (-60) ⟨1/2, 0, 0, 0, 0⟩).x ≤ -30 :=
  city_road_exclusion [⟨1/2, 0, 0, 0, 0⟩, ⟨1, 0, 0, 0, 0⟩]
    ⟨250, -500, 4, 4, 10⟩
    (by
      have h : createCyberpunkCity [⟨1/2, 0, 0, 0, 0⟩, ⟨1, 0, 0, 0, 0⟩]
          = [⟨250, -500, 4, 4, 10⟩] := by
        simp only [createCyberpunkCity, buildingSlot, buildingOfRand,
          List.filterMap_cons, List.filterMap_nil]
        norm_num
      rw [h]
      simp)
    ⟨1/2, 0, 0, 0, 0⟩ (by norm_num) (by norm_num)

/-- C8 counterexample: generation performs no configuration validation:
run with the out-of-range building count minus 1 it silently returns the
empty city instead of failing with an InvalidConfig error; its codomain
has no error values at all. -/
theorem invalid_config_counterexample :
    createCyberpunkCityN (-1) (fun _ => ⟨0, 0, 0, 0, 0⟩) = [] := by
  rfl

/-- C8 amended: the source has no configuration validation and no
InvalidConfig error; the building count is the hard-coded constant 400
(40 per row in the V2 variant); generalizing the loop to an integer
count, a count at most 0 silently yields the empty city, and for every
count generation is a total function into building lists whose length is
bounded by the count, so it cannot fail. -/
theorem invalid_config_amended (buildingCount : ℤ) (slots : ℕ → BRand)
    (hneg : buildingCount ≤ 0) :
    createCyberpunkCityN buildingCount slots = [] ∧
    ∀ c : ℤ, (createCyberpunkCityN c slots).length ≤ c.toNat := by
  constructor
  · unfold createCyberpunkCityN
    rw [Int.toNat_eq_zero.mpr hneg]
    rfl
  · intro c
    unfold createCyberpunkCityN createCyberpunkCity
    calc ((List.map slots (List.range c.toNat)).filterMap buildingSlot).length
        ≤ (List.map slots (List.range c.toNat)).length :=
          List.length_filterMap_le _ _
      _ = c.toNat := by simp

/-- C8 amended, witness: concrete evaluation at count minus 3. -/
theorem invalid_config_amended_witness :
    createCyberpunkCityN (-3) (fun _ => ⟨1, 0, 0, 0, 0⟩) = [] ∧
    ∀ c : ℤ,
      (createCyberpunkCityN c (fun _ => ⟨1, 0, 0, 0, 0⟩)).length ≤ c.toNat :=
  invalid_config_amended (-3) (fun _ => ⟨1, 0, 0, 0, 0⟩) (by norm_num)

/-- C7 counterexample: the height sampler of main.js is the affine map
u * 60 + 10 of the uniform draw; it does not agree on [0, 1] with any map
of the shape pow(u, e) * scale + minHeight with exponent e below 1, as
evaluation at the draws 1, one quarter and one sixteenth shows. -/
theorem building_height_not_power_shaped :
    ¬ ∃ e scale minH : ℝ, e < 1 ∧
      ∀ r : BRand, 0 ≤ r.rh → r.rh ≤ 1 →
        (((buildingOfRand r).height : ℚ) : ℝ)
            = (r.rh : ℝ) ^ e * scale + minH := by
  rintro ⟨e, scale, minH, he, hall⟩
  have h1 := hall ⟨0, 0, 0, 0, 1⟩ (by norm_num) (by norm_num)
  have h4 := hall ⟨0, 0, 0, 0, 1/4⟩ (by norm_num) (by norm_num)
  have h16 := hall ⟨0, 0, 0, 0, 1/16⟩ (by norm_num) (by norm_num)
  simp only [buildingOfRand] at h1 h4 h16
  push_cast at h1 h4 h16
  rw [Real.one_rpow] at h1
  set a : ℝ := (1/4 : ℝ) ^ e with ha
  have hkey : ((1/16 : ℝ)) ^ e = a * a := by
    rw [show (1/16 : ℝ) = (1/4) * (1/4) by norm_num,
      Real.mul_rpow (by norm_num) (by norm_num)]
  rw [hkey] at h16
  have hlt : (1/4 : ℝ) < a := by
    have h := Real.rpow_lt_rpow_of_exponent_gt
      (by norm_num : (0:ℝ) < 1/4) (by norm_num : (1/4:ℝ) < 1) he
    rwa [Real.rpow_one] at h
  have l1 : scale * (1 - a) = 45 := by linear_combination h4 - h1
  have l2 : scale * (1 - a * a) = 225/4 := by linear_combination h16 - h1
  have l3 : (45 : ℝ) * (1 + a) = 225/4 := by
    linear_combination l2 - (1 + a) * l1
  linarith

/-- C7 amended: width, depth and height are all sampled uniformly: for a
draw in [0, 1) the main.js building has height u * 60 + 10 in [10, 70)
and width and depth u * 8 + 4 in [4, 12), and the V2 building has height
u * 80 + 20 in [20, 100) and width and depth u * 15 + 8 in [8, 23); no
power shaping is applied to the height. -/
theorem building_dims_uniform_amended (r : BRand)
    (hh0 : 0 ≤ r.rh) (hh1 : r.rh < 1) (hw0 : 0 ≤ r.rw) (hw1 : r.rw < 1)
    (hd0 : 0 ≤ r.rd) (hd1 : r.rd < 1) :
    (buildingOfRand r).height = r.rh * 60 + 10 ∧
    10 ≤ (buildingOfRand r).height ∧ (buildingOfRand r).height < 70 ∧
    4 ≤ (buildingOfRand r).width ∧ (buildingOfRand r).width < 12 ∧
    4 ≤ (buildingOfRand r).depth ∧ (buildingOfRand r).depth < 12 ∧
    (buildingOfRandV2 30 60 r).height = r.rh * 80 + 20 ∧
    20 ≤ (buildingOfRandV2 30 60 r).height ∧
    (buildingOfRandV2 30 60 r).height < 100 ∧
    8 ≤ (buildingOfRandV2 30 60 r).width ∧
    (buildingOfRandV2 30 60 r).width < 23 := by
  unfold buildingOfRand buildingOfRandV2
  refine ⟨rfl, ?_, ?_, ?_, ?_, ?_, ?_, rfl, ?_, ?_, ?_, ?_⟩
  all_goals simp
  all_goals nlinarith

/-- C7 amended, witness: concrete evaluation at the draw one half for
every dimension. -/
theorem building_dims_uniform_amended_witness :
    (buildingOfRand ⟨0, 0, 1/2, 1/2, 1/2⟩).height = 1/2 * 60 + 10 ∧
    10 ≤ (buildingOfRand ⟨0, 0, 1/2, 1/2, 1/2⟩).height ∧
    (buildingOfRand ⟨0, 0, 1/2, 1/2, 1/2⟩).height < 70 ∧
    4 ≤ (buildingOfRand ⟨0, 0, 1/2, 1/2, 1/2⟩).width ∧
    (buildingOfRand ⟨0, 0, 1/2, 1/2, 1/2⟩).width < 12 ∧
    4 ≤ (buildingOfRand ⟨0, 0, 1/2, 1/2, 1/2⟩).depth ∧
    (buildingOfRand ⟨0, 0, 1/2, 1/2, 1/2⟩).depth < 12 ∧
    (buildingOfRandV2 30 60 ⟨0, 0, 1/2, 1/2, 1/2⟩).height = 1/2 * 80 + 20 ∧
    20 ≤ (buildingOfRandV2 30 60 ⟨0, 0, 1/2, 1/2, 1/2⟩).height ∧
    (buildingOfRandV2 30 60 ⟨0, 0, 1/2, 1/2, 1/2⟩).height < 100 ∧
    8 ≤ (buildingOfRandV2 30 60 ⟨0, 0, 1/2, 1/2, 1/2⟩).width ∧
    (buildingOfRandV2 30 60 ⟨0, 0, 1/2, 1/2, 1/2⟩).width < 23 :=
  building_dims_uniform_amended ⟨0, 0, 1/2, 1/2, 1/2⟩ (by norm_num)
    (by norm_num) (by norm_num) (by norm_num) (by norm_num) (by norm_num)

/-- Number of window rows of a building in main.js (createBuilding line
207): the floor of height over 4. -/
def windowRows (height : ℚ) : ℕ :=
  (⌊height / 4⌋).toNat

/-- Number of window columns of a building in main.js (createBuilding
line 208): the floor of width over 2. -/
def windowCols (width : ℚ) : ℕ :=
  (⌊width / 2⌋).toNat

/-- One window quad: offset in the parent building frame and the index of
the sampled palette color. -/
structure Window where
  wx : ℚ
  wy : ℚ
  wz : ℚ
  colorIdx : ℕ
  deriving Repr, DecidableEq

/-- The window list of one building in main.js (createBuilding lines
212-236): a row/column grid, each cell kept when its skip draw is at most
0.6, placed at x equal minus half the width plus twice the column plus 1
and y equal four times the row plus 3, with a front copy just outside the
depth face and a back copy mirrored, sharing a palette color index. -/
def buildingWindows (width depth height : ℚ) (rskip rcolor : ℕ → ℕ → ℚ) :
    List Window :=
  (List.range (windowRows height)).flatMap fun row =>
    (List.range (windowCols width)).flatMap fun col =>
      if rskip row col > 3/5 then []
      else
        [⟨-(width / 2) + col * 2 + 1, (row : ℚ) * 4 + 3,
          depth / 2 + 1/100, (⌊rcolor row col * 5⌋).toNat⟩,
         ⟨-(width / 2) + col * 2 + 1, (row : ℚ) * 4 + 3,
          -(depth / 2) - 1/100, (⌊rcolor row col * 5⌋).toNat⟩]

/-- C6: the window grid has floor(height / 4) rows, its column count
floor(width / 2) falls in the small range 2 to 5 for the sampled widths,
and every emitted window quad (1 wide, 2 tall, centered at its offset)
lies inside the building height extent [0, height] and width extent
[-width/2, width/2]. -/
theorem window_grid_containment (w d h : ℚ) (rskip rcolor : ℕ → ℕ → ℚ)
    (win : Window) (hmem : win ∈ buildingWindows w d h rskip rcolor) :
    windowRows h = (⌊h / 4⌋).toNat ∧
    0 ≤ win.wy - 1 ∧ win.wy + 1 ≤ h ∧
    -(w / 2) ≤ win.wx - 1/2 ∧ win.wx + 1/2 ≤ w / 2 ∧
    (4 ≤ w → 2 ≤ windowCols w) ∧ (w < 12 → windowCols w ≤ 5) := by
  obtain ⟨row, hrow, hm2⟩ := List.mem_flatMap.mp hmem
  obtain ⟨col, hcol, hm3⟩ := List.mem_flatMap.mp hm2
  rw [List.mem_range] at hrow hcol
  have hrowQ : ((row : ℚ) + 1) * 4 ≤ h := by
    have h1 : (row : ℤ) + 1 ≤ ⌊h / 4⌋ := by
      unfold windowRows at hrow
      omega
    have h2 : ((row : ℚ) + 1) ≤ h / 4 := by
      have := Int.le_floor.mp h1
      push_cast at this
      exact this
    linarith
  have hcolQ : ((col : ℚ) + 1) * 2 ≤ w := by
    have h1 : (col : ℤ) + 1 ≤ ⌊w / 2⌋ := by
      unfold windowCols at hcol
      omega
    have h2 : ((col : ℚ) + 1) ≤ w / 2 := by
      have := Int.le_floor.mp h1
      push_cast at this
      exact this
    linarith
  have hrow0 : (0 : ℚ) ≤ (row : ℚ) := by positivity
  have hcol0 : (0 : ℚ) ≤ (col : ℚ) := by positivity
  have hwin : win.wx = -(w / 2) + col * 2 + 1 ∧ win.wy = (row : ℚ) * 4 + 3 := by
    by_cases hskip : rskip row col > 3/5
    · rw [if_pos hskip] at hm3
      exact absurd hm3 (by simp)
    · rw [if_neg hskip] at hm3
      rcases List.mem_pair.mp hm3 with rfl | rfl
      · exact ⟨rfl, rfl⟩
      · exact ⟨rfl, rfl⟩
  refine ⟨rfl, ?_, ?_, ?_, ?_, ?_, ?_⟩
  · rw [hwin.2]; linarith
  · rw [hwin.2]; linarith
  · rw [hwin.1]; linarith
  · rw [hwin.1]; linarith
  · intro hw
    have h1 : (2 : ℤ) ≤ ⌊w / 2⌋ := Int.le_floor.mpr (by push_cast; linarith)
    unfold windowCols
    omega
  · intro hw
    have h1 : ⌊w / 2⌋ < 6 := Int.floor_lt.mpr (by push_cast; linarith)
    unfold windowCols
    omega

/-- C6 witness: a building of width 4, depth 2 and height 4 with no
window culled emits the window at offset (-1, 3), which satisfies the
containment bounds. -/
theorem window_grid_containment_witness :
    windowRows 4 = (⌊(4 : ℚ) / 4⌋).toNat ∧
    0 ≤ (Window.mk (-1) 3 (101/100) 0).wy - 1 ∧
    (Window.mk (-1) 3 (101/100) 0).wy + 1 ≤ 4 ∧
    -((4 : ℚ) / 2) ≤ (Window.mk (-1) 3 (101/100) 0).wx - 1/2 ∧
    (Window.mk (-1) 3 (101/100) 0).wx + 1/2 ≤ (4 : ℚ) / 2 ∧
    ((4 : ℚ) ≤ 4 → 2 ≤ windowCols 4) ∧ ((4 : ℚ) < 12 → windowCols 4 ≤ 5) :=
  window_grid_containment 4 2 4 (fun _ _ => 0) (fun _ _ => 0)
    ⟨-1, 3, 101/100, 0⟩
    (by
      have h : buildingWindows 4 2 4 (fun _ _ => 0) (fun _ _ => 0)
          = [⟨-1, 3, 101/100, 0⟩, ⟨-1, 3, -(101/100), 0⟩,
             ⟨1, 3, 101/100, 0⟩, ⟨1, 3, -(101/100), 0⟩] := by
        simp only [buildingWindows, windowRows, windowCols]
        norm_num
        rw [show Int.toNat 2 = 2 from rfl]
        norm_num [List.range_succ]
      rw [h]
      simp)
